import Mathlib

/-!
Shallow embedding of `src/Api/shared/utils/supabase.py` (TaskHub-API).

The file under verification is a singleton facade (`SupabaseManager`) over
the Supabase SDK.  We embed:

* the module-level configuration (`SUPABASE_URL`, `SUPABASE_KEY`, read once
  from the environment, possibly absent) as an `Env` record of
  `Option String`s, with Python truthiness made explicit (`truthy`);
* the singleton machinery of `SupabaseManager.__new__` as explicit state
  passing over `SingletonState` (the class attribute `_instance` plus a
  creation counter that models object identity of `create_client` results);
* the vendor SDK as an abstract response function `SDK.respond` over an
  inductive `SDKCall` describing exactly which underlying operation is
  invoked and with which arguments; every wrapper method issues its calls
  through `tracedCall`, which records the list of SDK calls performed, so
  "exactly one call, arguments unmodified, result returned verbatim" is a
  statement about that trace and result;
* Python dict payloads as the inductive `PyVal` (a dict field holding the
  Python value `None` is distinguishable from an absent field).
-/

/-- Python-style values used in SDK payloads: `None`, strings, and dicts
(association lists of string keys).  A key present with value `PyVal.none`
is distinct from an absent key, as in Python. -/
inductive PyVal where
  | none
  | str (s : String)
  | dict (fields : List (String × PyVal))

/-- Python exceptions relevant to the wrapper: the `ValueError` raised by
`SupabaseManager.__new__`, and arbitrary errors raised by the vendor SDK. -/
inductive PyError where
  | valueError (msg : String)
  | sdkError (info : String)
deriving DecidableEq

/-- The two module-level configuration values read by
`os.getenv("SUPABASE_URL")` and `os.getenv("SUPABASE_KEY")`;
`Option.none` models an unset environment variable. -/
structure Env where
  SUPABASE_URL : Option String
  SUPABASE_KEY : Option String

/-- Python truthiness of an optional string: `None` and `""` are falsy,
any other string is truthy.  `not SUPABASE_URL` in the source is
`!(truthy env.SUPABASE_URL)` here. -/
def truthy : Option String → Bool
  | Option.none => false
  | Option.some s => s ≠ ""

/-- The message of the `ValueError` raised on missing configuration. -/
def configErrorMsg : String :=
  "SUPABASE_URL and SUPABASE_KEY must be set in .env. Please check your environment configuration."

/-- The constructed manager object.  `createId` is the sequence number of
the `create_client` call that produced its client, modelling object
identity; `url` and `key` are the credentials the client was built from. -/
structure Manager where
  createId : Nat
  url : String
  key : String
deriving DecidableEq

/-- The class-level state of `SupabaseManager`: the `_instance` class
attribute, plus the count of `create_client` calls performed so far
(`clientsCreated`), which doubles as the next creation id. -/
structure SingletonState where
  _instance : Option Manager
  clientsCreated : Nat
deriving DecidableEq

/-- The state at process start: no instance stored, no client created. -/
def initState : SingletonState := ⟨Option.none, 0⟩

/-- `SupabaseManager.__new__`: if `_instance` is already set, return it
unchanged; otherwise raise `ValueError` when either credential is falsy,
else create a client, store the new instance, and return it. -/
def SupabaseManager.new (env : Env) (s : SingletonState) :
    Except PyError Manager × SingletonState :=
  match s._instance with
  | Option.some inst => (Except.ok inst, s)
  | Option.none =>
    if !(truthy env.SUPABASE_URL) || !(truthy env.SUPABASE_KEY) then
      (Except.error (PyError.valueError configErrorMsg), s)
    else
      let inst : Manager :=
        ⟨s.clientsCreated, env.SUPABASE_URL.getD "", env.SUPABASE_KEY.getD ""⟩
      (Except.ok inst, ⟨Option.some inst, s.clientsCreated + 1⟩)

/-- Iterated construction attempts: the state after `n` further calls to
`SupabaseManager()`. -/
def newIter (env : Env) : Nat → SingletonState → SingletonState
  | 0, s => s
  | n + 1, s => newIter env n (SupabaseManager.new env s).2

/-- One call into the vendor SDK, identifying the underlying operation and
the exact arguments the wrapper passes to it. -/
inductive SDKCall where
  | signUp (payload : PyVal)
  | signInWithPassword (payload : PyVal)
  | signOut
  | getUser (jwt : String)
  | refreshSession (refresh_token : String)
  | createBucket (bucket_name : String)
  | upload (bucket_name file_path : String) (file_content : PyVal) (file_options : PyVal)
  | getPublicUrl (bucket_name file_path : String)
  | remove (bucket_name : String) (paths : List String)
  | table (table_name : String)

/-- An abstract (stub) vendor SDK: for each call it either returns a
response value or raises an error.  The wrapper never inspects either. -/
structure SDK where
  respond : SDKCall → Except PyError PyVal

/-- Issue one SDK call, recording it in the trace and returning the SDK's
result untouched. -/
def tracedCall (sdk : SDK) (c : SDKCall) : List SDKCall × Except PyError PyVal :=
  ([c], sdk.respond c)

/-- `sign_up`: forwards to `self.auth().sign_up` with payload
email / password / options.data = user_metadata (the Python value `None`
when the optional argument is omitted). -/
def SupabaseManager.sign_up (sdk : SDK) (email password : String)
    (user_metadata : Option PyVal) : List SDKCall × Except PyError PyVal :=
  tracedCall sdk (SDKCall.signUp (PyVal.dict
    [("email", PyVal.str email), ("password", PyVal.str password),
     ("options", PyVal.dict [("data", user_metadata.getD PyVal.none)])]))

/-- `sign_in`: forwards to `self.auth().sign_in_with_password` with payload
email / password. -/
def SupabaseManager.sign_in (sdk : SDK) (email password : String) :
    List SDKCall × Except PyError PyVal :=
  tracedCall sdk (SDKCall.signInWithPassword (PyVal.dict
    [("email", PyVal.str email), ("password", PyVal.str password)]))

/-- `sign_out`: takes an access token but forwards to
`self.auth().sign_out()` with no arguments. -/
def SupabaseManager.sign_out (sdk : SDK) (access_token : String) :
    List SDKCall × Except PyError PyVal :=
  tracedCall sdk SDKCall.signOut

/-- `get_user`: forwards to `self.auth().get_user(jwt=access_token)`. -/
def SupabaseManager.get_user (sdk : SDK) (access_token : String) :
    List SDKCall × Except PyError PyVal :=
  tracedCall sdk (SDKCall.getUser access_token)

/-- `refresh_token`: forwards to `self.auth().refresh_session`. -/
def SupabaseManager.refresh_token (sdk : SDK) (tok : String) :
    List SDKCall × Except PyError PyVal :=
  tracedCall sdk (SDKCall.refreshSession tok)

/-- `create_bucket`: forwards to `self.storage().create_bucket`. -/
def SupabaseManager.create_bucket (sdk : SDK) (bucket_name : String) :
    List SDKCall × Except PyError PyVal :=
  tracedCall sdk (SDKCall.createBucket bucket_name)

/-- `upload_file`: forwards to
`self.storage().from_(bucket).upload(path, content, file_options)` where
the file-options dict carries the content type under "content-type". -/
def SupabaseManager.upload_file (sdk : SDK) (bucket_name file_path : String)
    (file_content : PyVal) (content_type : String) :
    List SDKCall × Except PyError PyVal :=
  tracedCall sdk (SDKCall.upload bucket_name file_path file_content
    (PyVal.dict [("content-type", PyVal.str content_type)]))

/-- `get_file_url`: forwards to
`self.storage().from_(bucket).get_public_url(path)`. -/
def SupabaseManager.get_file_url (sdk : SDK) (bucket_name file_path : String) :
    List SDKCall × Except PyError PyVal :=
  tracedCall sdk (SDKCall.getPublicUrl bucket_name file_path)

/-- `delete_file`: forwards to
`self.storage().from_(bucket).remove([file_path])`. -/
def SupabaseManager.delete_file (sdk : SDK) (bucket_name file_path : String) :
    List SDKCall × Except PyError PyVal :=
  tracedCall sdk (SDKCall.remove bucket_name [file_path])

/-- `table`: forwards to `self.client.table(table_name)`. -/
def SupabaseManager.table (sdk : SDK) (table_name : String) :
    List SDKCall × Except PyError PyVal :=
  tracedCall sdk (SDKCall.table table_name)

/-- One invocation of an exposed forwarding method, with its arguments. -/
inductive WrapperOp where
  | signUpOp (email password : String) (md : Option PyVal)
  | signInOp (email password : String)
  | signOutOp (access_token : String)
  | getUserOp (access_token : String)
  | refreshTokenOp (tok : String)
  | createBucketOp (bucket_name : String)
  | uploadFileOp (bucket_name file_path : String) (content : PyVal) (content_type : String)
  | getFileUrlOp (bucket_name file_path : String)
  | deleteFileOp (bucket_name file_path : String)
  | tableOp (table_name : String)

/-- Dispatch a wrapper operation to the corresponding wrapper method. -/
def runOp (sdk : SDK) : WrapperOp → List SDKCall × Except PyError PyVal
  | WrapperOp.signUpOp e p md => SupabaseManager.sign_up sdk e p md
  | WrapperOp.signInOp e p => SupabaseManager.sign_in sdk e p
  | WrapperOp.signOutOp t => SupabaseManager.sign_out sdk t
  | WrapperOp.getUserOp t => SupabaseManager.get_user sdk t
  | WrapperOp.refreshTokenOp t => SupabaseManager.refresh_token sdk t
  | WrapperOp.createBucketOp b => SupabaseManager.create_bucket sdk b
  | WrapperOp.uploadFileOp b f c ct => SupabaseManager.upload_file sdk b f c ct
  | WrapperOp.getFileUrlOp b f => SupabaseManager.get_file_url sdk b f
  | WrapperOp.deleteFileOp b f => SupabaseManager.delete_file sdk b f
  | WrapperOp.tableOp t => SupabaseManager.table sdk t

/-- The single SDK call each wrapper operation is specified to perform. -/
def WrapperOp.toSDKCall : WrapperOp → SDKCall
  | WrapperOp.signUpOp e p md => SDKCall.signUp (PyVal.dict
      [("email", PyVal.str e), ("password", PyVal.str p),
       ("options", PyVal.dict [("data", md.getD PyVal.none)])])
  | WrapperOp.signInOp e p => SDKCall.signInWithPassword (PyVal.dict
      [("email", PyVal.str e), ("password", PyVal.str p)])
  | WrapperOp.signOutOp _ => SDKCall.signOut
  | WrapperOp.getUserOp t => SDKCall.getUser t
  | WrapperOp.refreshTokenOp t => SDKCall.refreshSession t
  | WrapperOp.createBucketOp b => SDKCall.createBucket b
  | WrapperOp.uploadFileOp b f c ct => SDKCall.upload b f c
      (PyVal.dict [("content-type", PyVal.str ct)])
  | WrapperOp.getFileUrlOp b f => SDKCall.getPublicUrl b f
  | WrapperOp.deleteFileOp b f => SDKCall.remove b [f]
  | WrapperOp.tableOp t => SDKCall.table t

/-- A stub SDK with a canned response, as in the spec's concrete
scenario: it answers every call with the same response value. -/
def cannedResponse : PyVal := PyVal.str "canned"

/-- The recording stub SDK of the spec's concrete scenario. -/
def stubSDK : SDK := ⟨fun _ => Except.ok cannedResponse⟩

/- ------------------------------------------------------------------ -/
/- Helper lemmas shared by the construction claims.                    -/
/- ------------------------------------------------------------------ -/

/-- With a falsy credential, a construction attempt from the initial state
raises the `ValueError` and leaves the state untouched. -/
lemma new_bad_creds (env : Env)
    (h : truthy env.SUPABASE_URL = false ∨ truthy env.SUPABASE_KEY = false) :
    SupabaseManager.new env initState =
      (Except.error (PyError.valueError configErrorMsg), initState) := by
  rcases h with h | h <;> simp [SupabaseManager.new, initState, h]

/-- A state fixed by one construction attempt is fixed by any number. -/
lemma newIter_fixed (env : Env) (s : SingletonState)
    (h : (SupabaseManager.new env s).2 = s) :
    ∀ n, newIter env n s = s := by
  intro n
  induction n with
  | zero => rfl
  | succ n ih => simpa [newIter, h] using ih

/- ------------------------------------------------------------------ -/
/- Claims.                                                             -/
/- ------------------------------------------------------------------ -/

/-- C1: for every combination of the two configuration values in which at
least one is absent or empty (falsy), constructing the manager handle
fails with a `ValueError` carrying the configuration message, and no
client is constructed: the singleton state is left exactly as it was. -/
theorem construction_fails_without_credentials (env : Env)
    (h : truthy env.SUPABASE_URL = false ∨ truthy env.SUPABASE_KEY = false) :
    SupabaseManager.new env initState =
      (Except.error (PyError.valueError configErrorMsg), initState) :=
  new_bad_creds env h

/-- Witness for C1 at the concrete combination URL = "" (empty), key
absent. -/
theorem construction_fails_without_credentials_witness :
    (truthy (Env.mk (Option.some "") Option.none).SUPABASE_URL = false ∨
      truthy (Env.mk (Option.some "") Option.none).SUPABASE_KEY = false) ∧
    SupabaseManager.new (Env.mk (Option.some "") Option.none) initState =
      (Except.error (PyError.valueError configErrorMsg), initState) :=
  ⟨Or.inl (by decide),
   construction_fails_without_credentials (Env.mk (Option.some "") Option.none)
     (Or.inl (by decide))⟩

/-- C2: with truthy credentials, the first construction succeeds and
stores an instance; every further construction returns that identical
instance (same creation id) and leaves the state unchanged, and the total
number of clients ever created never exceeds one. -/
theorem singleton_identity (env : Env)
    (hu : truthy env.SUPABASE_URL = true) (hk : truthy env.SUPABASE_KEY = true) :
    ∃ m s1,
      SupabaseManager.new env initState = (Except.ok m, s1) ∧
      (∀ n, newIter env n s1 = s1) ∧
      (∀ n, ∃ r, SupabaseManager.new env (newIter env n s1) = (Except.ok r, s1) ∧ r = m) ∧
      (∀ n, (newIter env n initState).clientsCreated ≤ 1) := by
  set m : Manager := ⟨0, env.SUPABASE_URL.getD "", env.SUPABASE_KEY.getD ""⟩ with hm
  set s1 : SingletonState := ⟨Option.some m, 1⟩ with hs1
  have hfix : (SupabaseManager.new env s1).2 = s1 := by
    simp [SupabaseManager.new, hs1]
  have hloop : ∀ n, newIter env n s1 = s1 := newIter_fixed env s1 hfix
  have h1 : SupabaseManager.new env initState = (Except.ok m, s1) := by
    simp [SupabaseManager.new, initState, hu, hk, hm, hs1]
  refine ⟨m, s1, h1, hloop, ?_, ?_⟩
  · intro n
    rw [hloop n]
    simp [SupabaseManager.new, hs1]
  · intro n
    cases n with
    | zero => simp [newIter, initState]
    | succ n =>
      have h2 : (SupabaseManager.new env initState).2 = s1 := by rw [h1]
      simp [newIter, h2, hloop n, hs1]

/-- Witness for C2 with the concrete environment URL = "https://x.test",
key = "k". -/
theorem singleton_identity_witness :
    (truthy (Env.mk (Option.some "https://x.test") (Option.some "k")).SUPABASE_URL = true ∧
      truthy (Env.mk (Option.some "https://x.test") (Option.some "k")).SUPABASE_KEY = true) ∧
    ∃ m s1,
      SupabaseManager.new (Env.mk (Option.some "https://x.test") (Option.some "k")) initState =
        (Except.ok m, s1) ∧
      (∀ n, newIter (Env.mk (Option.some "https://x.test") (Option.some "k")) n s1 = s1) ∧
      (∀ n, ∃ r, SupabaseManager.new (Env.mk (Option.some "https://x.test") (Option.some "k"))
          (newIter (Env.mk (Option.some "https://x.test") (Option.some "k")) n s1) =
          (Except.ok r, s1) ∧ r = m) ∧
      (∀ n, (newIter (Env.mk (Option.some "https://x.test") (Option.some "k")) n
          initState).clientsCreated ≤ 1) :=
  ⟨⟨by decide, by decide⟩,
   singleton_identity (Env.mk (Option.some "https://x.test") (Option.some "k"))
     (by decide) (by decide)⟩

/-- C3: `sign_in` issues exactly one SDK call, to the password sign-in
operation with payload email / password, and returns the SDK's result
verbatim; in the spec's concrete stub scenario with "a@b.com" / "pw", the
trace is that single call and the result is the stub's canned response. -/
theorem sign_in_forwards_verbatim :
    (∀ (sdk : SDK) (email password : String),
      SupabaseManager.sign_in sdk email password =
        ([SDKCall.signInWithPassword (PyVal.dict
            [("email", PyVal.str email), ("password", PyVal.str password)])],
         sdk.respond (SDKCall.signInWithPassword (PyVal.dict
            [("email", PyVal.str email), ("password", PyVal.str password)])))) ∧
    SupabaseManager.sign_in stubSDK "a@b.com" "pw" =
      ([SDKCall.signInWithPassword (PyVal.dict
          [("email", PyVal.str "a@b.com"), ("password", PyVal.str "pw")])],
       Except.ok cannedResponse) :=
  ⟨fun _ _ _ => rfl, rfl⟩

/-- C4: `upload_file` issues exactly one SDK upload on the given bucket
and path, with the content type inside the file-options dict under the
"content-type" key (not as a separate parameter), and returns the SDK's
result verbatim. -/
theorem upload_file_content_type_in_options (sdk : SDK)
    (bucket_name file_path : String) (file_content : PyVal) (content_type : String) :
    SupabaseManager.upload_file sdk bucket_name file_path file_content content_type =
      ([SDKCall.upload bucket_name file_path file_content
          (PyVal.dict [("content-type", PyVal.str content_type)])],
       sdk.respond (SDKCall.upload bucket_name file_path file_content
          (PyVal.dict [("content-type", PyVal.str content_type)]))) :=
  rfl

/-- C5: `get_file_url` issues exactly one get-public-url SDK call for the
given bucket and path and returns the SDK's reported result without
modification. -/
theorem get_file_url_verbatim (sdk : SDK) (bucket_name file_path : String) :
    SupabaseManager.get_file_url sdk bucket_name file_path =
      ([SDKCall.getPublicUrl bucket_name file_path],
       sdk.respond (SDKCall.getPublicUrl bucket_name file_path)) :=
  rfl

/-- C6: every exposed forwarding operation performs exactly one SDK call
(no retrying) and yields exactly the SDK's result for that call: a
successful response is returned unmodified and a raised error propagates
unchanged, with no catching, validation, or translation. -/
theorem forwarding_no_translation (sdk : SDK) (op : WrapperOp) :
    runOp sdk op = ([op.toSDKCall], sdk.respond op.toSDKCall) := by
  cases op <;> rfl

/-- Witness for C6: the delete operation on concrete arguments against the
stub SDK. -/
theorem forwarding_no_translation_witness :
    runOp stubSDK (WrapperOp.deleteFileOp "b" "f") =
      ([(WrapperOp.deleteFileOp "b" "f").toSDKCall],
       stubSDK.respond (WrapperOp.deleteFileOp "b" "f").toSDKCall) :=
  forwarding_no_translation stubSDK (WrapperOp.deleteFileOp "b" "f")

/-- C7: `sign_out` ignores its access-token argument: for any token it
performs the identical no-argument SDK sign-out call and yields the SDK's
result for it, so any two token values produce identical behaviour. -/
theorem sign_out_token_unused :
    (∀ (sdk : SDK) (access_token : String),
      SupabaseManager.sign_out sdk access_token =
        ([SDKCall.signOut], sdk.respond SDKCall.signOut)) ∧
    (∀ (sdk : SDK) (t1 t2 : String),
      SupabaseManager.sign_out sdk t1 = SupabaseManager.sign_out sdk t2) :=
  ⟨fun _ _ => rfl, fun _ _ _ => rfl⟩

/-- C8: with absent credentials the first construction attempt raises the
configuration `ValueError` once and is fatal: no instance is stored, the
singleton state is unchanged, and after any number of further attempts the
state still holds no instance and no client was ever created. -/
theorem config_error_first_attempt_fatal (env : Env)
    (h : truthy env.SUPABASE_URL = false ∨ truthy env.SUPABASE_KEY = false) :
    SupabaseManager.new env initState =
      (Except.error (PyError.valueError configErrorMsg), initState) ∧
    ∀ n, newIter env n initState = initState := by
  have step := new_bad_creds env h
  exact ⟨step, newIter_fixed env initState (by rw [step])⟩

/-- Witness for C8 with both variables absent. -/
theorem config_error_first_attempt_fatal_witness :
    (truthy (Env.mk Option.none Option.none).SUPABASE_URL = false ∨
      truthy (Env.mk Option.none Option.none).SUPABASE_KEY = false) ∧
    (SupabaseManager.new (Env.mk Option.none Option.none) initState =
        (Except.error (PyError.valueError configErrorMsg), initState) ∧
      ∀ n, newIter (Env.mk Option.none Option.none) n initState = initState) :=
  ⟨Or.inl (by decide),
   config_error_first_attempt_fatal (Env.mk Option.none Option.none)
     (Or.inl (by decide))⟩

/-- C9: `sign_up` always sends a payload whose "options" entry is a dict
with a "data" field equal to the supplied metadata; when the metadata
argument is omitted (Python default `None`), the field is still present
and holds the value `None` rather than being absent. -/
theorem sign_up_options_data_always_present :
    (∀ (sdk : SDK) (email password : String) (user_metadata : Option PyVal),
      SupabaseManager.sign_up sdk email password user_metadata =
        ([SDKCall.signUp (PyVal.dict
            [("email", PyVal.str email), ("password", PyVal.str password),
             ("options", PyVal.dict [("data", user_metadata.getD PyVal.none)])])],
         sdk.respond (SDKCall.signUp (PyVal.dict
            [("email", PyVal.str email), ("password", PyVal.str password),
             ("options", PyVal.dict [("data", user_metadata.getD PyVal.none)])])))) ∧
    (∀ (sdk : SDK) (email password : String),
      SupabaseManager.sign_up sdk email password Option.none =
        ([SDKCall.signUp (PyVal.dict
            [("email", PyVal.str email), ("password", PyVal.str password),
             ("options", PyVal.dict [("data", PyVal.none)])])],
         sdk.respond (SDKCall.signUp (PyVal.dict
            [("email", PyVal.str email), ("password", PyVal.str password),
             ("options", PyVal.dict [("data", PyVal.none)])])))) :=
  ⟨fun _ _ _ _ => rfl, fun _ _ _ => rfl⟩

/-- C10: `delete_file` issues exactly one SDK remove call on the given
bucket with the single path wrapped in a one-element list, and returns the
SDK's result unmodified. -/
theorem delete_file_wraps_path_in_list (sdk : SDK) (bucket_name file_path : String) :
    SupabaseManager.delete_file sdk bucket_name file_path =
      ([SDKCall.remove bucket_name [file_path]],
       sdk.respond (SDKCall.remove bucket_name [file_path])) :=
  rfl
